import Mathlib

/-!
Verification development for the legal-document analyzer backend
(`backend/api/routers/entities.py` and `backend/services/granite_llm.py`).

The Python code is shallowly embedded: regular-expression matching is
modelled by a small backtracking engine over `List Char` whose search
order (leftmost scan, ordered alternation, greedy quantifiers) mirrors
the CPython `re` module on the pattern constructs actually used by the
source; Python string helpers (`strip`, `split`, `replace`, `lstrip`,
`title`, `startswith`) are modelled directly on character lists; the
iteration order of Python `set` (implementation defined) is modelled by
first-occurrence deduplication; Python floats in confidence handling are
modelled as exact rationals.
-/

set_option maxHeartbeats 4000000
set_option maxRecDepth 8192

namespace LegalDoc

/-- ASCII letter test. Under `re.IGNORECASE` both `[A-Z]` and `[a-z]`
match any ASCII letter, so both classes are modelled by this predicate. -/
def isAsciiLetter (c : Char) : Bool :=
  ('a' ≤ c && c ≤ 'z') || ('A' ≤ c && c ≤ 'Z')

/-- Decimal digit test, the regex class `\d` on ASCII input. -/
def isDigitCh (c : Char) : Bool := '0' ≤ c && c ≤ '9'

/-- Python whitespace (`str.strip` default set and the regex class `\s`
on ASCII input): space, tab, newline, carriage return, vertical tab,
form feed. -/
def isPySpace (c : Char) : Bool :=
  c = ' ' || c = '\t' || c = '\n' || c = '\r' || c = '\x0b' || c = '\x0c'

/-- Word character for the `\b` assertion: `[a-zA-Z0-9_]`. -/
def isWordCh (c : Char) : Bool := isAsciiLetter c || isDigitCh c || c = '_'

/-- Python `str.strip()` on a character list. -/
def pyStripL (l : List Char) : List Char :=
  ((l.dropWhile isPySpace).reverse.dropWhile isPySpace).reverse

/-- Python `str.strip()`. -/
def pyStrip (s : String) : String := String.mk (pyStripL s.data)

/-- Prefix test on character lists (Python `str.startswith` core). -/
def isPre : List Char → List Char → Bool
  | [], _ => true
  | _ :: _, [] => false
  | a :: as, b :: bs => a = b && isPre as bs

/-- Python `str.startswith`. -/
def strStarts (s pre : String) : Bool := isPre pre.data s.data

/-- Worker for Python `str.split(sep)` with non-empty `sep`: scan left
to right, cutting at each non-overlapping occurrence of `sep`.  The
fuel is structural; callers pass at least `length + 1` so the fallback
case is unreachable. -/
def pySplitGo (sep : List Char) : Nat → List Char → List Char → List (List Char)
  | _, [], acc => [acc.reverse]
  | 0, s, acc => [acc.reverse ++ s]
  | n + 1, c :: rest, acc =>
    if 0 < sep.length && isPre sep (c :: rest) then
      acc.reverse :: pySplitGo sep n ((c :: rest).drop sep.length) []
    else
      pySplitGo sep n rest (c :: acc)

/-- Python `str.split(sep)` on character lists. -/
def pySplitL (s sep : List Char) : List (List Char) :=
  pySplitGo sep (s.length + 1) s []

/-- Python `s.split(sep)`. -/
def pySplit (s sep : String) : List String :=
  (pySplitL s.data sep.data).map String.mk

/-- Python `s.replace(old, new)` (every occurrence, left to right). -/
def pyReplace (s old new : String) : String :=
  String.mk (List.intercalate new.data (pySplitL s.data old.data))

/-- Python `s.split(sep)[-1]`: the text after the last occurrence of
`sep` (the whole string when `sep` does not occur). -/
def lastSplitSegment (s sep : String) : String :=
  String.mk ((pySplitL s.data sep.data).getLastD s.data)

/-- Substring test on character lists. -/
def containsSubL (sub : List Char) : List Char → Bool
  | [] => sub.isEmpty
  | c :: rest => isPre sub (c :: rest) || containsSubL sub rest

/-- Substring test: does `s` contain `sub`? -/
def strContainsSub (s sub : String) : Bool := containsSubL sub.data s.data

/-- Python `str.lstrip('-•')`: drop leading bullet characters. -/
def stripBullets (s : String) : String :=
  String.mk (s.data.dropWhile (fun c => c = '-' || c = '•'))

/-- Worker for Python `str.title()`: a letter that follows a letter is
lowercased, a letter that follows a non-letter is uppercased. -/
def pyTitleGo : Bool → List Char → List Char
  | _, [] => []
  | prevAlpha, c :: rest =>
    if isAsciiLetter c then
      (if prevAlpha then c.toLower else c.toUpper) :: pyTitleGo true rest
    else
      c :: pyTitleGo false rest

/-- Python `str.title()` on ASCII input. -/
def pyTitle (s : String) : String := String.mk (pyTitleGo false s.data)

/-- First-occurrence deduplication worker.  The iteration order of a
CPython `set` is implementation defined; `list(set(xs))` is modelled
throughout as keeping the first occurrence of each string in `xs`.
All theorems stated about deduplicated output are insensitive to which
representative order a `set` would actually produce. -/
def dedupSeen (seen : List String) : List String → List String
  | [] => []
  | x :: xs =>
    if seen.contains x then dedupSeen seen xs
    else x :: dedupSeen (x :: seen) xs

/-- Model of Python `list(set(l))` (first-occurrence order). -/
def dedupFirst (l : List String) : List String := dedupSeen [] l

/-!
A small backtracking regular-expression engine.  Constructors cover
exactly the constructs appearing in the source patterns: character
classes, concatenation, ordered alternation, greedy `*`, greedy `?`,
and the word-boundary assertion `\b`.  `+` and counted repetitions are
derived forms.  The continuation-passing matcher explores alternatives
in the same order as the CPython `re` backtracking engine (alternation
left to right, quantifiers longest first), so the first success it
returns is the match CPython would return.
-/

/-- Regular-expression syntax. -/
inductive RE where
  | eps : RE
  | cls : (Char → Bool) → RE
  | seq : RE → RE → RE
  | alt : RE → RE → RE
  | star : RE → RE
  | opt : RE → RE
  | wb : RE

/-- Word-boundary test between the previous character (if any) and the
head of the remaining input. -/
def wordBoundary (prev : Option Char) (s : List Char) : Bool :=
  let a := match prev with
    | some c => isWordCh c
    | none => false
  let b := match s with
    | c :: _ => isWordCh c
    | [] => false
  a != b

/-- Backtracking matcher in continuation-passing style.  `prev` is the
character just before the current position (for `\b`).  The fuel
argument makes the recursion structural; it is consumed on every call,
and callers supply far more fuel than the longest possible search path
needs, so exhaustion (which returns `none`) is unreachable on the
concrete inputs evaluated in this file.  Alternation tries its left arm
first; `star` and `opt` try consuming first — exactly the CPython
preference order.  A `star` iteration that consumes nothing stops the
iteration, as in CPython. -/
def reMat : Nat → RE → Option Char → List Char →
    (Option Char → List Char → Option (List Char)) → Option (List Char)
  | 0, _, _, _, _ => none
  | n + 1, re, prev, s, k =>
    match re with
    | RE.eps => k prev s
    | RE.wb => if wordBoundary prev s then k prev s else none
    | RE.cls p =>
      match s with
      | [] => none
      | c :: rest => if p c then k (some c) rest else none
    | RE.seq a b => reMat n a prev s (fun p2 s2 => reMat n b p2 s2 k)
    | RE.alt a b =>
      match reMat n a prev s k with
      | some r => some r
      | none => reMat n b prev s k
    | RE.opt a =>
      match reMat n a prev s k with
      | some r => some r
      | none => k prev s
    | RE.star a =>
      match reMat n a prev s
          (fun p2 s2 =>
            if s2.length < s.length then reMat n (RE.star a) p2 s2 k
            else k p2 s2) with
      | some r => some r
      | none => k prev s

/-- Fuel bound for one match attempt: generous multiple of the input
length so that no genuine search path can exhaust it. -/
def reFuel (s : List Char) : Nat := 1000 * (s.length + 2)

/-- Worker for `re.findall`: scan start positions left to right; on a
match, record it and resume after it (advancing one character after an
empty match, as CPython does). -/
def findallGo : Nat → RE → Option Char → List Char → List (List Char)
  | 0, _, _, _ => []
  | n + 1, re, prev, s =>
    match reMat (reFuel s) re prev s (fun _ rest => some rest) with
    | some rest =>
      let len := s.length - rest.length
      let matched := s.take len
      if 0 < len then
        matched :: findallGo n re matched.getLast? rest
      else
        match s with
        | [] => [matched]
        | c :: s2 => matched :: findallGo n re (some c) s2
    | none =>
      match s with
      | [] => []
      | c :: s2 => findallGo n re (some c) s2

/-- Model of `re.findall(pattern, text)` for patterns without capturing
groups: the list of non-overlapping matches, left to right. -/
def reFindall (re : RE) (s : String) : List String :=
  (findallGo (s.data.length + 1) re none s.data).map String.mk

/-- Model of the truthiness of `re.search(pattern, text)`. -/
def reSearchB (re : RE) (s : String) : Bool :=
  !(reFindall re s).isEmpty

/-- Literal character (case-sensitive). -/
def chC (c : Char) : RE := RE.cls (fun x => x = c)

/-- Literal character under `re.IGNORECASE`. -/
def ciC (c : Char) : RE := RE.cls (fun x => x.toLower = c.toLower)

/-- Literal string under `re.IGNORECASE`. -/
def ciLit (s : String) : RE := s.data.foldr (fun c r => RE.seq (ciC c) r) RE.eps

/-- Ordered alternation of a list of alternatives (left to right). -/
def alts : List RE → RE
  | [] => RE.cls (fun _ => false)
  | [r] => r
  | r :: rs => RE.alt r (alts rs)

/-- Sequential composition of a list. -/
def seqs : List RE → RE
  | [] => RE.eps
  | [r] => r
  | r :: rs => RE.seq r (seqs rs)

/-- Greedy `+`. -/
def rplus (a : RE) : RE := RE.seq a (RE.star a)

/-- Class `[A-Z]` (and `[a-z]`) under `re.IGNORECASE`. -/
def clAlpha : RE := RE.cls isAsciiLetter

/-- Class `\d`. -/
def clDigit : RE := RE.cls isDigitCh

/-- Class `\s`. -/
def clSpace : RE := RE.cls isPySpace

/-- Pattern `\s+`. -/
def wsPlus : RE := rplus clSpace

/-- Pattern `\s*`. -/
def wsStar : RE := RE.star clSpace

/-- Class `[^.]`. -/
def clNotDot : RE := RE.cls (fun c => c ≠ '.')

/-- Class `[\d,]`. -/
def clDigitComma : RE := RE.cls (fun c => isDigitCh c || c = ',')

/-- Class `[A-Z\s&]` under `re.IGNORECASE`. -/
def clAlphaSpAmp : RE := RE.cls (fun c => isAsciiLetter c || isPySpace c || c = '&')

/-- Pattern fragment `[A-Z][a-z]+` under `re.IGNORECASE` (a run of two
or more ASCII letters). -/
def wordTok : RE := RE.seq clAlpha (rplus clAlpha)

/-- Pattern fragment `\d{1,2}` (greedy). -/
def d12 : RE := RE.seq clDigit (RE.opt clDigit)

/-- Pattern fragment `\d{2,4}` (greedy). -/
def d24 : RE := seqs [clDigit, clDigit, RE.opt clDigit, RE.opt clDigit]

/-- Pattern fragment `\d{4}`. -/
def dig4 : RE := seqs [clDigit, clDigit, clDigit, clDigit]

/-- Character class matching a slash or a dash. -/
def slashDash : RE := RE.cls (fun c => c = '/' || c = '-')

/-!
Party patterns of `extract_parties` (entities.py lines 72-77), all
compiled with `re.IGNORECASE`.
-/

/-- Pattern `\b[A-Z][a-z]+ [A-Z][a-z]+(?:\s+[A-Z][a-z]+)*\b`. -/
def partyPat1 : RE :=
  seqs [RE.wb, wordTok, chC ' ', wordTok, RE.star (RE.seq wsPlus wordTok), RE.wb]

/-- Pattern `\b[A-Z][A-Z\s&]+(?:LLC|Inc|Corp|Company|Ltd|LP|LLP)\b`. -/
def partyPat2 : RE :=
  seqs [RE.wb, clAlpha, rplus clAlphaSpAmp,
    alts [ciLit "LLC", ciLit "Inc", ciLit "Corp", ciLit "Company",
      ciLit "Ltd", ciLit "LP", ciLit "LLP"], RE.wb]

/-- Pattern `(?:Company|Corporation|LLC|Inc|Ltd|LP|LLP)(?:\s+[A-Z][a-z]+)*`. -/
def partyPat3 : RE :=
  RE.seq
    (alts [ciLit "Company", ciLit "Corporation", ciLit "LLC", ciLit "Inc",
      ciLit "Ltd", ciLit "LP", ciLit "LLP"])
    (RE.star (RE.seq wsPlus wordTok))

/-- Pattern
`(?:Party|Parties|Client|Contractor|Employee|Employer|Lessor|Lessee)(?:\s+[A-Z][a-z]+)*`. -/
def partyPat4 : RE :=
  RE.seq
    (alts [ciLit "Party", ciLit "Parties", ciLit "Client", ciLit "Contractor",
      ciLit "Employee", ciLit "Employer", ciLit "Lessor", ciLit "Lessee"])
    (RE.star (RE.seq wsPlus wordTok))

/-- The `extract_parties` function (entities.py lines 70-85): pool the
matches of the four patterns, strip, keep those longer than 3
characters, deduplicate as a set, cap at 5. -/
def extract_parties (text : String) : List String :=
  let pool := reFindall partyPat1 text ++ reFindall partyPat2 text ++
    reFindall partyPat3 text ++ reFindall partyPat4 text
  (dedupFirst ((pool.filter (fun p => 3 < (pyStrip p).length)).map pyStrip)).take 5

/-- Month-name alternation used by the date patterns. -/
def monthAlt : RE :=
  alts [ciLit "January", ciLit "February", ciLit "March", ciLit "April",
    ciLit "May", ciLit "June", ciLit "July", ciLit "August",
    ciLit "September", ciLit "October", ciLit "November", ciLit "December"]

/-- Pattern `\b\d{1,2}` slash-or-dash `\d{1,2}` slash-or-dash `\d{2,4}\b`. -/
def datePat1 : RE := seqs [RE.wb, d12, slashDash, d12, slashDash, d24, RE.wb]

/-- Pattern `\b\d{4}` slash-or-dash `\d{1,2}` slash-or-dash `\d{1,2}\b`. -/
def datePat2 : RE := seqs [RE.wb, dig4, slashDash, d12, slashDash, d12, RE.wb]

/-- Pattern `\b(?:January|...|December)\s+\d{1,2},?\s+\d{4}\b`. -/
def datePat3 : RE :=
  seqs [RE.wb, monthAlt, wsPlus, d12, RE.opt (chC ','), wsPlus, dig4, RE.wb]

/-- Pattern `\b\d{1,2}\s+(?:January|...|December)\s+\d{4}\b`. -/
def datePat4 : RE := seqs [RE.wb, d12, wsPlus, monthAlt, wsPlus, dig4, RE.wb]

/-- Pattern `\b(?:within|after|before|during)\s+\d+\s+(?:days|months|years)\b`. -/
def datePat5 : RE :=
  seqs [RE.wb, alts [ciLit "within", ciLit "after", ciLit "before", ciLit "during"],
    wsPlus, rplus clDigit, wsPlus,
    alts [ciLit "days", ciLit "months", ciLit "years"], RE.wb]

/-- The `extract_dates` function (entities.py lines 87-102): pool the
matches of the five patterns, deduplicate as a set, cap at 5. -/
def extract_dates (text : String) : List String :=
  let pool := reFindall datePat1 text ++ reFindall datePat2 text ++
    reFindall datePat3 text ++ reFindall datePat4 text ++ reFindall datePat5 text
  (dedupFirst pool).take 5

/-- Pattern fragment `(?:\.\d{2})?`. -/
def centsOpt : RE := RE.opt (seqs [chC '.', clDigit, clDigit])

/-- Pattern `\$[\d,]+(?:\.\d{2})?`. -/
def moneyPat1 : RE := seqs [chC '$', rplus clDigitComma, centsOpt]

/-- Pattern `\b\d+(?:,\d{3})*(?:\.\d{2})?\s*dollars?\b`. -/
def moneyPat2 : RE :=
  seqs [RE.wb, rplus clDigit,
    RE.star (seqs [chC ',', clDigit, clDigit, clDigit]), centsOpt,
    wsStar, ciLit "dollar", RE.opt (ciC 's'), RE.wb]

/-- Pattern `\b(?:USD|EUR|GBP)\s*[\d,]+(?:\.\d{2})?\b`. -/
def moneyPat3 : RE :=
  seqs [RE.wb, alts [ciLit "USD", ciLit "EUR", ciLit "GBP"], wsStar,
    rplus clDigitComma, centsOpt, RE.wb]

/-- Pattern
`\b(?:salary|wage|fee|payment|compensation|amount)\s*:?\s*\$?[\d,]+(?:\.\d{2})?\b`. -/
def moneyPat4 : RE :=
  seqs [RE.wb,
    alts [ciLit "salary", ciLit "wage", ciLit "fee", ciLit "payment",
      ciLit "compensation", ciLit "amount"],
    wsStar, RE.opt (chC ':'), wsStar, RE.opt (chC '$'),
    rplus clDigitComma, centsOpt, RE.wb]

/-- Pattern
`\b(?:per|each|every)\s+(?:hour|month|year|week)\s*:?\s*\$?[\d,]+(?:\.\d{2})?\b`. -/
def moneyPat5 : RE :=
  seqs [RE.wb, alts [ciLit "per", ciLit "each", ciLit "every"], wsPlus,
    alts [ciLit "hour", ciLit "month", ciLit "year", ciLit "week"],
    wsStar, RE.opt (chC ':'), wsStar, RE.opt (chC '$'),
    rplus clDigitComma, centsOpt, RE.wb]

/-- The `extract_monetary_values` function (entities.py lines 104-119):
pool the matches of the five patterns, deduplicate as a set, cap at 5. -/
def extract_monetary_values (text : String) : List String :=
  let pool := reFindall moneyPat1 text ++ reFindall moneyPat2 text ++
    reFindall moneyPat3 text ++ reFindall moneyPat4 text ++ reFindall moneyPat5 text
  (dedupFirst pool).take 5

/-- Modal-verb alternation
`(?:shall|must|will|agrees? to|required to|responsible for)`. -/
def modalAlt : RE :=
  alts [ciLit "shall", ciLit "must", ciLit "will",
    seqs [ciLit "agree", RE.opt (ciC 's'), ciLit " to"],
    ciLit "required to", ciLit "responsible for"]

/-- Pattern `(?:shall|must|will|agrees? to|required to|responsible for)\s+[^.]+[.]`. -/
def obligPat1 : RE := seqs [modalAlt, wsPlus, rplus clNotDot, chC '.']

/-- Pattern `(?:obligation|duty|responsibility|requirement)\s+[^.]+[.]`. -/
def obligPat2 : RE :=
  seqs [alts [ciLit "obligation", ciLit "duty", ciLit "responsibility",
    ciLit "requirement"], wsPlus, rplus clNotDot, chC '.']

/-- Pattern `(?:Party|Employee|Contractor|Company)\s+(?:shall|must|will|agrees?)\s+[^.]+[.]`. -/
def obligPat3 : RE :=
  seqs [alts [ciLit "Party", ciLit "Employee", ciLit "Contractor", ciLit "Company"],
    wsPlus,
    alts [ciLit "shall", ciLit "must", ciLit "will",
      seqs [ciLit "agree", RE.opt (ciC 's')]],
    wsPlus, rplus clNotDot, chC '.']

/-- The `extract_obligations` function (entities.py lines 121-136):
pool the stripped matches of the three patterns, keep those of length
strictly between 20 and 200, cap at 5.  Note that unlike the other
categories this list is never deduplicated. -/
def extract_obligations (text : String) : List String :=
  let pool := (reFindall obligPat1 text ++ reFindall obligPat2 text ++
    reFindall obligPat3 text).map pyStrip
  (pool.filter (fun o => 20 < o.length && o.length < 200)).take 5

/-- The fixed vocabulary of `extract_legal_terms` (entities.py lines 140-145). -/
def legalVocab : List String :=
  ["confidentiality", "non-disclosure", "liability", "indemnification", "breach",
   "termination", "jurisdiction", "governing law", "force majeure", "arbitration",
   "intellectual property", "copyright", "trademark", "patent", "trade secret",
   "warranty", "guarantee", "representation", "covenant", "consideration"]

/-- Whole-word search pattern `\b<term>\b` (the vocabulary terms contain
no regex metacharacters once escaped, so the escaped literal is the
term itself). -/
def wholeWordRE (term : String) : RE := seqs [RE.wb, ciLit term, RE.wb]

/-- The `extract_legal_terms` function (entities.py lines 138-152): a
vocabulary term found as a whole word (case-insensitively) is included
title-cased; cap at 8. -/
def extract_legal_terms (text : String) : List String :=
  ((legalVocab.filter (fun t => reSearchB (wholeWordRE t) text)).map pyTitle).take 8

/-- Category keys in the order the source constructs results. -/
def categories : List String :=
  ["parties", "dates", "monetary_values", "obligations", "legal_terms"]

/-- The `extract_entities_rule_based` function (entities.py lines 42-51),
modelling the Python dict as an association list in insertion order. -/
def extract_entities_rule_based (text : String) : List (String × List String) :=
  [("parties", extract_parties text),
   ("dates", extract_dates text),
   ("monetary_values", extract_monetary_values text),
   ("obligations", extract_obligations text),
   ("legal_terms", extract_legal_terms text)]

/-- Python `dict.get(k, [])` on the association-list model. -/
def dictGet (d : List (String × List String)) (k : String) : List String :=
  match d.find? (fun p => p.1 == k) with
  | some p => p.2
  | none => []

/-- One category of `merge_entity_results` (entities.py lines 57-66):
concatenate, deduplicate as a set, drop items that are empty or
whitespace-only, cap at 10. -/
def mergeCategory (aiItems ruleItems : List String) : List String :=
  ((dedupFirst (aiItems ++ ruleItems)).filter
    (fun item => item != "" && pyStrip item != "")).take 10

/-- The `merge_entity_results` function (entities.py lines 53-68). -/
def merge_entity_results (aiE ruleE : List (String × List String)) :
    List (String × List String) :=
  categories.map (fun c => (c, mergeCategory (dictGet aiE c) (dictGet ruleE c)))

/-!
Model of `GraniteLLMService` (granite_llm.py).  The mutable flags
`self.model_loaded` and `self.pipeline` become an explicit state
record; the fallible external model acquisition and the generation
pipeline become oracle parameters (a success flag for acquisition, a
function from the issued request to an outcome for generation).
-/

/-- The keyword arguments the source passes to `self.pipeline(...)`
(granite_llm.py lines 99-108), with the numeric sampling parameters as
exact rationals. -/
structure GenRequest where
  promptText : String
  maxNewTokens : Nat
  temperature : ℚ
  doSample : Bool
  topP : ℚ
  repetitionPenalty : ℚ
  numReturnSequences : Nat
deriving DecidableEq, Repr

/-- Outcome of one call to the generation pipeline: it either raises or
returns the full generated text. -/
inductive GenOutcome where
  | raises : GenOutcome
  | returns : String → GenOutcome
deriving DecidableEq, Repr

/-- The mutable service flags: `self.model_loaded` and whether
`self.pipeline` is set (non-`None`). -/
structure ServiceState where
  modelLoaded : Bool
  pipelinePresent : Bool
deriving DecidableEq, Repr

/-- The `_initialize_model` method (granite_llm.py lines 48-84): on
success both the loaded flag and the pipeline handle are set; on any
exception the flag is set to `False`, the exception is swallowed, and
the pipeline handle keeps its previous value (it is only assigned after
the last fallible step). -/
def initModel (st : ServiceState) (loadSucceeds : Bool) : ServiceState :=
  if loadSucceeds then ServiceState.mk true true
  else ServiceState.mk false st.pipelinePresent

/-- The `_ensure_model_loaded` method (granite_llm.py lines 43-46):
whenever `model_loaded` is `False` — including after an earlier failed
attempt — it calls `_initialize_model` again.  The second component
records whether an initialization attempt was made by this call. -/
def ensureModelLoaded (st : ServiceState) (loadSucceeds : Bool) :
    ServiceState × Bool :=
  if st.modelLoaded then (st, false) else (initModel st loadSucceeds, true)

/-- The Granite instruction format wrapper (granite_llm.py line 95). -/
def formatGranitePrompt (prompt : String) : String :=
  "<|user|>\n" ++ prompt ++ "\n<|assistant|>\n"

/-- The request `generate_response` issues to the pipeline
(granite_llm.py lines 99-108): `max_new_tokens=min(max_length, 100)`,
`temperature=0.3`, `do_sample=True`, `top_p=0.8`,
`repetition_penalty=1.05`, `num_return_sequences=1`.  The
`temperature` argument of `generate_response` is not consulted. -/
def issuedRequest (prompt : String) (maxLength : Nat) : GenRequest :=
  GenRequest.mk (formatGranitePrompt prompt) (min maxLength 100) (3/10) true
    (4/5) (21/20) 1

/-- Literal returned when the model is unavailable (granite_llm.py line 92). -/
def modelUnavailableMsg : String :=
  "Model not available. Please check system requirements and try again."

/-- Literal returned when generation raises (granite_llm.py line 123). -/
def techDifficultiesMsg : String :=
  "I'm experiencing some technical difficulties with text generation. Please try again with a simpler question."

/-- Literal returned when the stripped answer is empty or shorter than
10 characters (granite_llm.py line 117). -/
def tooShortMsg : String :=
  "I understand your question. Due to current processing constraints, please try a more specific question or check back shortly."

/-- The `generate_response` method (granite_llm.py lines 86-127): lazily
(re-)ensure the model, return the canned unavailable message when the
flags are not both set, issue the request, convert a raised generation
error into the canned apology, take the text after the last
`<|assistant|>` turn marker, strip it, and replace answers shorter than
10 characters by the canned too-short message.  The function is total:
no branch propagates a failure. -/
def generate_response (st : ServiceState) (loadSucceeds : Bool)
    (gen : GenRequest → GenOutcome) (prompt : String) (maxLength : Nat)
    (temperature : ℚ) : String :=
  let st2 := (ensureModelLoaded st loadSucceeds).1
  if !st2.modelLoaded || !st2.pipelinePresent then modelUnavailableMsg
  else
    match gen (issuedRequest prompt maxLength) with
    | GenOutcome.raises => techDifficultiesMsg
    | GenOutcome.returns fullResponse =>
      let resp := pyStrip (lastSplitSegment fullResponse "<|assistant|>\n")
      if resp == "" || resp.length < 10 then tooShortMsg else resp

/-- The `max_length` value `simplify_clause` passes to
`generate_response` (granite_llm.py line 144). -/
def simplifyClauseMaxLength : Nat := 300

/-- The `max_length` value `extract_entities_with_ai` passes to
`generate_response` (granite_llm.py line 176). -/
def extractEntitiesMaxLength : Nat := 400

/-- The `max_length` value `classify_document_with_ai` passes to
`generate_response` (granite_llm.py line 274). -/
def classifyDocumentMaxLength : Nat := 300

/-- The `max_length` value `answer_question` passes to
`generate_response` (granite_llm.py line 350). -/
def answerQuestionMaxLength : Nat := 200

/-!
The response parser inside `extract_entities_with_ai`
(granite_llm.py lines 179-228).
-/

/-- The five-category entity record the parser accumulates. -/
structure Entities where
  parties : List String
  dates : List String
  monetary_values : List String
  obligations : List String
  legal_terms : List String
deriving DecidableEq, Repr

/-- The initial all-empty record (granite_llm.py lines 179-185). -/
def emptyEntities : Entities := Entities.mk [] [] [] [] []

/-- Category cursor values of the entity parser. -/
inductive ECat where
  | parties : ECat
  | dates : ECat
  | monetary_values : ECat
  | obligations : ECat
  | legal_terms : ECat
deriving DecidableEq, Repr

/-- Append items to the category a cursor designates. -/
def addItems (e : Entities) (c : ECat) (xs : List String) : Entities :=
  match c with
  | ECat.parties =>
    Entities.mk (e.parties ++ xs) e.dates e.monetary_values e.obligations e.legal_terms
  | ECat.dates =>
    Entities.mk e.parties (e.dates ++ xs) e.monetary_values e.obligations e.legal_terms
  | ECat.monetary_values =>
    Entities.mk e.parties e.dates (e.monetary_values ++ xs) e.obligations e.legal_terms
  | ECat.obligations =>
    Entities.mk e.parties e.dates e.monetary_values (e.obligations ++ xs) e.legal_terms
  | ECat.legal_terms =>
    Entities.mk e.parties e.dates e.monetary_values e.obligations (e.legal_terms ++ xs)

/-- Inline comma-list handling:
`[item.strip() for item in items.split(',') if item.strip()]`. -/
def splitCommaItems (items : String) : List String :=
  (pySplit items ",").filterMap
    (fun it => let t := pyStrip it; if t == "" then none else some t)

/-- One section-header branch of the entity parser: remove every
occurrence of the header text from the line, strip, and unless the
remainder is empty or the literal placeholder from the prompt template,
extend the category with the inline comma-list. -/
def headerApply (e : Entities) (l : String) (header : String) (cat : ECat)
    (placeholder : String) : Entities :=
  let items := pyStrip (pyReplace l header "")
  if items != "" && items != placeholder then addItems e cat (splitCommaItems items)
  else e

/-- The line loop of the entity parser (granite_llm.py lines 188-223).
The final `elif` of the source is
`elif current_category and line.startswith('-') or line.startswith('•'):`,
which Python parses as
`(current_category and line.startswith('-')) or line.startswith('•')`;
a `•`-prefixed line with no active cursor therefore enters the branch
and `entities[None].append(...)` raises `KeyError`, which the
surrounding `except` catches, abandoning the rest of the lines and
returning the entities accumulated so far.  That abandonment is
modelled by the `none` cursor case returning `e` immediately. -/
def parseEntityLinesGo : List String → Entities → Option ECat → Entities
  | [], e, _ => e
  | line :: rest, e, cur =>
    let l := pyStrip line
    if strStarts l "PARTIES:" then
      parseEntityLinesGo rest
        (headerApply e l "PARTIES:" ECat.parties
          "[list the individuals, companies, or organizations involved]")
        (some ECat.parties)
    else if strStarts l "DATES:" then
      parseEntityLinesGo rest
        (headerApply e l "DATES:" ECat.dates "[list all dates mentioned]")
        (some ECat.dates)
    else if strStarts l "MONETARY VALUES:" then
      parseEntityLinesGo rest
        (headerApply e l "MONETARY VALUES:" ECat.monetary_values
          "[list all money amounts, fees, or financial terms]")
        (some ECat.monetary_values)
    else if strStarts l "OBLIGATIONS:" then
      parseEntityLinesGo rest
        (headerApply e l "OBLIGATIONS:" ECat.obligations
          "[list key duties, responsibilities, or requirements]")
        (some ECat.obligations)
    else if strStarts l "LEGAL TERMS:" then
      parseEntityLinesGo rest
        (headerApply e l "LEGAL TERMS:" ECat.legal_terms
          "[list important legal concepts or technical terms]")
        (some ECat.legal_terms)
    else if (cur.isSome && strStarts l "-") || strStarts l "•" then
      let item := pyStrip (stripBullets l)
      if item == "" then parseEntityLinesGo rest e cur
      else
        match cur with
        | some c => parseEntityLinesGo rest (addItems e c [item]) cur
        | none => e
    else parseEntityLinesGo rest e cur

/-- The response parser of `extract_entities_with_ai` applied to the
generated reply (granite_llm.py lines 187-228). -/
def parse_ai_entities (response : String) : Entities :=
  parseEntityLinesGo (pySplit response "\n") emptyEntities none

/-!
The response parser inside `classify_document_with_ai`
(granite_llm.py lines 276-318).
-/

/-- The classification record, with confidence as an exact rational. -/
structure Classification where
  type : String
  confidence : ℚ
  description : String
  key_characteristics : List String
deriving DecidableEq, Repr

/-- The pre-parse default record (granite_llm.py lines 277-282). -/
def defaultClassification : Classification :=
  Classification.mk "General Legal Document" (1/2) "Legal document analysis" []

/-- Digit run to a natural number. -/
def digitsToNat (ds : List Char) : Nat :=
  ds.foldl (fun n c => 10 * n + (c.toNat - '0'.toNat)) 0

/-- Worker modelling `re.search(r'(\d+\.?\d*)', s)` followed by
`float(...)`: find the first digit, take the maximal digit run, an
optional dot, and a maximal (possibly empty) further digit run. -/
def firstNumber : List Char → Option ℚ
  | [] => none
  | c :: rest =>
    if isDigitCh c then
      let intDs := (c :: rest).takeWhile isDigitCh
      let after := (c :: rest).dropWhile isDigitCh
      let frac :=
        match after with
        | '.' :: rest2 => rest2.takeWhile isDigitCh
        | _ => []
      some ((digitsToNat intDs : ℚ) + (digitsToNat frac : ℚ) / (10 : ℚ) ^ frac.length)
    else firstNumber rest

/-- First decimal number in a string, as an exact rational. -/
def parseFirstNumber (s : String) : Option ℚ := firstNumber s.data

/-- The line loop of the classification parser (granite_llm.py lines
285-313).  Note it keeps no category cursor: the `Key Characteristics:`
header line is merely skipped, and every bulleted line anywhere in the
reply is appended to `key_characteristics`.  A parsed confidence value
strictly greater than 1 is rescaled by 1/100; an unparseable value
leaves the field unchanged. -/
def parseClassifyLinesGo : List String → Classification → Classification
  | [], r => r
  | line :: rest, r =>
    let l := pyStrip line
    if strStarts l "Type:" then
      let docType := pyStrip (pyReplace l "Type:" "")
      parseClassifyLinesGo rest
        (if docType != "" then
          Classification.mk docType r.confidence r.description r.key_characteristics
        else r)
    else if strStarts l "Confidence:" then
      let confStr := pyStrip (pyReplace l "Confidence:" "")
      parseClassifyLinesGo rest
        (match parseFirstNumber confStr with
         | some v =>
           Classification.mk r.type (if 1 < v then v / 100 else v) r.description
             r.key_characteristics
         | none => r)
    else if strStarts l "Description:" then
      let desc := pyStrip (pyReplace l "Description:" "")
      parseClassifyLinesGo rest
        (if desc != "" then
          Classification.mk r.type r.confidence desc r.key_characteristics
        else r)
    else if strStarts l "Key Characteristics:" then
      parseClassifyLinesGo rest r
    else if strStarts l "-" || strStarts l "•" then
      let ch := pyStrip (stripBullets l)
      parseClassifyLinesGo rest
        (if ch != "" then
          Classification.mk r.type r.confidence r.description
            (r.key_characteristics ++ [ch])
        else r)
    else parseClassifyLinesGo rest r

/-- The response parser of `classify_document_with_ai` applied to the
generated reply (granite_llm.py lines 284-318). -/
def parse_ai_classification (response : String) : Classification :=
  parseClassifyLinesGo (pySplit response "\n") defaultClassification

/-!
Lemmas about first-occurrence deduplication and the merge.
-/

/-- Elements of the deduplicated list come from the input. -/
theorem mem_of_mem_dedupSeen {a : String} (l : List String) :
    ∀ seen, a ∈ dedupSeen seen l → a ∈ l := by
  induction l with
  | nil => intro seen h; simp [dedupSeen] at h
  | cons x xs ih =>
    intro seen h
    by_cases hc : seen.contains x
    · simp only [dedupSeen, hc, if_true] at h
      exact List.mem_cons_of_mem _ (ih seen h)
    · simp only [dedupSeen, hc, Bool.false_eq_true, if_false, List.mem_cons] at h
      rcases h with rfl | h
      · exact List.mem_cons_self _ _
      · exact List.mem_cons_of_mem _ (ih (x :: seen) h)

/-- Nothing already seen reappears in the deduplicated list. -/
theorem not_mem_dedupSeen {a : String} (l : List String) :
    ∀ seen, a ∈ seen → a ∉ dedupSeen seen l := by
  induction l with
  | nil => intro seen _ h; simp [dedupSeen] at h
  | cons x xs ih =>
    intro seen ha h
    by_cases hc : seen.contains x
    · simp only [dedupSeen, hc, if_true] at h
      exact ih seen ha h
    · simp only [dedupSeen, hc, Bool.false_eq_true, if_false, List.mem_cons] at h
      rcases h with rfl | h
      · simp at hc
        exact hc ha
      · exact ih (x :: seen) (List.mem_cons_of_mem _ ha) h

/-- The deduplicated list has no duplicates. -/
theorem nodup_dedupSeen (l : List String) : ∀ seen, (dedupSeen seen l).Nodup := by
  induction l with
  | nil => intro seen; simp [dedupSeen]
  | cons x xs ih =>
    intro seen
    by_cases hc : seen.contains x
    · simpa only [dedupSeen, hc, if_true] using ih seen
    · simp only [dedupSeen, hc, Bool.false_eq_true, if_false, List.nodup_cons]
      exact ⟨not_mem_dedupSeen xs (x :: seen) (List.mem_cons_self x seen), ih (x :: seen)⟩

/-- Membership in the deduplicated list. -/
theorem nodup_dedupFirst (l : List String) : (dedupFirst l).Nodup :=
  nodup_dedupSeen l []

/-- The seen-set accumulated after processing a list. -/
def seenAfter : List String → List String → List String
  | seen, [] => seen
  | seen, x :: xs => seenAfter (if seen.contains x then seen else x :: seen) xs

/-- Deduplication distributes over append, with the seen-set threaded. -/
theorem dedupSeen_append (l1 l2 : List String) :
    ∀ seen, dedupSeen seen (l1 ++ l2) =
      dedupSeen seen l1 ++ dedupSeen (seenAfter seen l1) l2 := by
  induction l1 with
  | nil => intro seen; simp [dedupSeen, seenAfter]
  | cons x xs ih =>
    intro seen
    by_cases hc : seen.contains x
    · simp only [List.cons_append, dedupSeen, hc, if_true, seenAfter]
      exact ih seen
    · simp only [List.cons_append, dedupSeen, hc, Bool.false_eq_true, if_false,
        seenAfter, List.append_eq]
      rw [ih (x :: seen)]

/-- The initial seen-set survives processing. -/
theorem mem_seenAfter_of_mem_seen {a : String} (l : List String) :
    ∀ seen, a ∈ seen → a ∈ seenAfter seen l := by
  induction l with
  | nil => intro seen h; simpa [seenAfter] using h
  | cons x xs ih =>
    intro seen h
    by_cases hc : seen.contains x
    · simp only [seenAfter, hc, if_true]
      exact ih seen h
    · simp only [seenAfter, hc, Bool.false_eq_true, if_false]
      exact ih (x :: seen) (List.mem_cons_of_mem _ h)

/-- Every processed element ends up in the seen-set. -/
theorem mem_seenAfter_of_mem {a : String} (l : List String) :
    ∀ seen, a ∈ l → a ∈ seenAfter seen l := by
  induction l with
  | nil => intro seen h; simp at h
  | cons x xs ih =>
    intro seen h
    rcases List.mem_cons.mp h with rfl | h
    · by_cases hc : seen.contains a
      · simp only [seenAfter, hc, if_true]
        simp at hc
        exact mem_seenAfter_of_mem_seen xs seen hc
      · simp only [seenAfter, hc, Bool.false_eq_true, if_false]
        exact mem_seenAfter_of_mem_seen xs (a :: seen) (List.mem_cons_self _ _)
    · by_cases hc : seen.contains x
      · simp only [seenAfter, hc, if_true]
        exact ih seen h
      · simp only [seenAfter, hc, Bool.false_eq_true, if_false]
        exact ih (x :: seen) h

/-- A list all of whose elements were already seen deduplicates to nothing. -/
theorem dedupSeen_eq_nil (l : List String) :
    ∀ seen, (∀ a ∈ l, a ∈ seen) → dedupSeen seen l = [] := by
  induction l with
  | nil => intro seen _; simp [dedupSeen]
  | cons x xs ih =>
    intro seen h
    have hx : seen.contains x := by
      simp only [List.contains_iff_exists_mem_beq]
      exact ⟨x, h x (List.mem_cons_self _ _), by simp⟩
    simp only [dedupSeen, hx, if_true]
    exact ih seen (fun a ha => h a (List.mem_cons_of_mem _ ha))

/-- Model of `list(set(l + l)) == list(set(l))`: self-append changes
nothing under set semantics. -/
theorem dedupFirst_append_self (l : List String) :
    dedupFirst (l ++ l) = dedupFirst l := by
  unfold dedupFirst
  rw [dedupSeen_append l l []]
  rw [dedupSeen_eq_nil l (seenAfter [] l) (fun a ha => mem_seenAfter_of_mem l [] ha)]
  simp

/-- Every merged item originates from one of the two inputs. -/
theorem mem_mergeCategory {x : String} {a b : List String}
    (h : x ∈ mergeCategory a b) : x ∈ a ∨ x ∈ b := by
  unfold mergeCategory at h
  have h1 := List.mem_of_mem_take h
  have h2 := List.mem_of_mem_filter h1
  exact List.mem_append.mp (mem_of_mem_dedupSeen _ _ h2)

/-- The merged category list never contains duplicates. -/
theorem nodup_mergeCategory (a b : List String) : (mergeCategory a b).Nodup :=
  (((nodup_dedupFirst (a ++ b)).filter _).sublist (List.take_sublist _ _))

/-- The merged category list never exceeds 10 items. -/
theorem length_mergeCategory (a b : List String) :
    (mergeCategory a b).length ≤ 10 :=
  List.length_take_le _ _

/-- No merged item is empty or whitespace-only. -/
theorem strip_ne_empty_of_mem_mergeCategory {x : String} {a b : List String}
    (h : x ∈ mergeCategory a b) : pyStrip x ≠ "" := by
  unfold mergeCategory at h
  have h1 := List.mem_of_mem_take h
  have h2 := List.of_mem_filter h1
  simp only [Bool.and_eq_true, bne_iff_ne, ne_eq] at h2
  exact h2.2

/-- Self-merge of one category: deduplicate, drop empty or
whitespace-only items, cap at 10. -/
theorem mergeCategory_self (xs : List String) :
    mergeCategory xs xs =
      ((dedupFirst xs).filter (fun item => item != "" && pyStrip item != "")).take 10 := by
  unfold mergeCategory
  rw [dedupFirst_append_self]

/-- Looking a fixed category up in the merged association list yields
the merge of the two inputs' values for that category. -/
theorem dictGet_merge (A B : List (String × List String)) {c : String}
    (hc : c ∈ categories) :
    dictGet (merge_entity_results A B) c =
      mergeCategory (dictGet A c) (dictGet B c) := by
  simp only [categories, List.mem_cons, List.not_mem_nil, or_false] at hc
  rcases hc with rfl | rfl | rfl | rfl | rfl <;> rfl

/-!
The claims.
-/

/-- The input text of the end-to-end scenario. -/
def c1Text : String := "John Smith shall pay $1,000.00 to Acme Corp within 30 days."

/-- Evaluation of `extract_parties` on the scenario text: the greedy
two-or-more-word pattern under `re.IGNORECASE` captures whole runs of
words, so the entries are supersets of the names, not the bare names. -/
theorem c1_parties_eq :
    extract_parties c1Text =
      ["John Smith shall pay", "to Acme Corp within", "to Acme Corp"] := by decide

/-- Evaluation of `extract_dates` on the scenario text. -/
theorem c1_dates_eq : extract_dates c1Text = ["within 30 days"] := by decide

/-- Evaluation of `extract_monetary_values` on the scenario text. -/
theorem c1_monetary_eq : extract_monetary_values c1Text = ["$1,000.00"] := by decide

/-- Evaluation of `extract_obligations` on the scenario text: the only
candidate match is `"shall pay $1,000."` — the `[^.]+` stops at the
decimal point inside `$1,000.00` — whose 17 characters fail the
`len > 20` filter, so the list is empty. -/
theorem c1_obligations_eq : extract_obligations c1Text = [] := by decide

/-- Evaluation of `extract_legal_terms` on the scenario text. -/
theorem c1_legal_eq : extract_legal_terms c1Text = [] := by decide

/-- C1, counterexample: the end-to-end scenario as stated is false for
the code.  The parties list contains neither exact string `"John
Smith"` nor `"Acme Corp"` (only longer matches containing them), and —
refuted here — the obligations list is empty, so no obligation entry
contains the scenario sentence. -/
theorem C1_scenario_counterexample :
    ¬ (("John Smith" ∈ extract_parties c1Text ∨
        "Acme Corp" ∈ extract_parties c1Text) ∧
       "within 30 days" ∈ extract_dates c1Text ∧
       "$1,000.00" ∈ extract_monetary_values c1Text ∧
       (∃ o ∈ extract_obligations c1Text,
         strContainsSub o "shall pay $1,000.00 to Acme Corp within 30 days." = true) ∧
       extract_legal_terms c1Text = []) := by
  intro h
  have hob := h.2.2.2.1
  rw [c1_obligations_eq] at hob
  simp at hob

/-- C1, amended: on the scenario text the rule-based extractor returns
parties `["John Smith shall pay", "to Acme Corp within", "to Acme
Corp"]` (strings containing `"John Smith"` and `"Acme Corp"` but not
equal to them), dates `["within 30 days"]`, monetary values
`["$1,000.00"]`, an empty obligations list (the modal-verb pattern
stops at the period inside `$1,000.00` and the 17-character remnant is
dropped by the length filter), and an empty legal-terms list. -/
theorem C1_scenario_amended :
    extract_parties c1Text =
      ["John Smith shall pay", "to Acme Corp within", "to Acme Corp"] ∧
    strContainsSub "John Smith shall pay" "John Smith" = true ∧
    strContainsSub "to Acme Corp" "Acme Corp" = true ∧
    extract_dates c1Text = ["within 30 days"] ∧
    extract_monetary_values c1Text = ["$1,000.00"] ∧
    extract_obligations c1Text = [] ∧
    extract_legal_terms c1Text = [] :=
  ⟨c1_parties_eq, by decide, by decide, c1_dates_eq, c1_monetary_eq,
   c1_obligations_eq, c1_legal_eq⟩

/-- C2, counterexample: merged categories are deduplicated by exact
string match only, not after trimming — `"x"` and `" x"` both survive
the merge although they are equal once stripped. -/
theorem C2_merge_counterexample :
    ¬ List.Pairwise (fun a b => pyStrip a ≠ pyStrip b)
        (dictGet (merge_entity_results [("parties", ["x", " x"])] []) "parties") := by
  decide

/-- C2, amended: for every pair of entity dicts and every fixed
category, the merged category is a subset of the union of the inputs,
contains no exact duplicates (deduplication is by exact string match,
with no trimming before comparison), contains no empty or
whitespace-only strings, has at most 10 items, and the merged dict has
exactly the five fixed category keys in order. -/
theorem C2_merge_properties (A B : List (String × List String)) (c : String)
    (hc : c ∈ categories) :
    (∀ x ∈ dictGet (merge_entity_results A B) c,
      x ∈ dictGet A c ∨ x ∈ dictGet B c) ∧
    (dictGet (merge_entity_results A B) c).Nodup ∧
    (∀ x ∈ dictGet (merge_entity_results A B) c, pyStrip x ≠ "") ∧
    (dictGet (merge_entity_results A B) c).length ≤ 10 ∧
    (merge_entity_results A B).map Prod.fst = categories := by
  rw [dictGet_merge A B hc]
  exact ⟨fun x hx => mem_mergeCategory hx,
    nodup_mergeCategory _ _,
    fun x hx => strip_ne_empty_of_mem_mergeCategory hx,
    length_mergeCategory _ _,
    rfl⟩

/-- C2, witness: the merge properties instantiated at concrete dicts
and the category `"parties"`. -/
theorem C2_merge_properties_witness :
    (∀ x ∈ dictGet (merge_entity_results [("parties", ["a", ""])] [("parties", ["b"])]) "parties",
      x ∈ dictGet [("parties", ["a", ""])] "parties" ∨
      x ∈ dictGet [("parties", ["b"])] "parties") ∧
    (dictGet (merge_entity_results [("parties", ["a", ""])] [("parties", ["b"])]) "parties").Nodup ∧
    (∀ x ∈ dictGet (merge_entity_results [("parties", ["a", ""])] [("parties", ["b"])]) "parties",
      pyStrip x ≠ "") ∧
    (dictGet (merge_entity_results [("parties", ["a", ""])] [("parties", ["b"])]) "parties").length ≤ 10 ∧
    (merge_entity_results [("parties", ["a", ""])] [("parties", ["b"])]).map Prod.fst = categories :=
  C2_merge_properties [("parties", ["a", ""])] [("parties", ["b"])] "parties" (by decide)

/-- C3: `generate_response` is a total function of its inputs (the
embedding is a Lean function, so it can neither raise nor fail to
return a string), and the three fallback branches return their literal
messages: the unavailable message when the flags are not both set after
the lazy-load attempt, the technical-difficulties message when the
pipeline raises, and the too-short message when the text after the last
`<|assistant|>` turn marker strips to fewer than 10 characters. -/
theorem C3_generate_contract (st : ServiceState) (loadSucceeds : Bool)
    (gen : GenRequest → GenOutcome) (prompt : String) (maxLength : Nat)
    (temperature : ℚ) :
    (((ensureModelLoaded st loadSucceeds).1.modelLoaded = false ∨
      (ensureModelLoaded st loadSucceeds).1.pipelinePresent = false) →
      generate_response st loadSucceeds gen prompt maxLength temperature =
        modelUnavailableMsg) ∧
    ((ensureModelLoaded st loadSucceeds).1.modelLoaded = true →
      (ensureModelLoaded st loadSucceeds).1.pipelinePresent = true →
      gen (issuedRequest prompt maxLength) = GenOutcome.raises →
      generate_response st loadSucceeds gen prompt maxLength temperature =
        techDifficultiesMsg) ∧
    (∀ full : String,
      (ensureModelLoaded st loadSucceeds).1.modelLoaded = true →
      (ensureModelLoaded st loadSucceeds).1.pipelinePresent = true →
      gen (issuedRequest prompt maxLength) = GenOutcome.returns full →
      (pyStrip (lastSplitSegment full "<|assistant|>\n")).length < 10 →
      generate_response st loadSucceeds gen prompt maxLength temperature =
        tooShortMsg) := by
  refine ⟨?_, ?_, ?_⟩
  · intro h
    unfold generate_response
    rcases h with h | h <;> simp [h]
  · intro h1 h2 hg
    unfold generate_response
    simp [h1, h2, hg]
  · intro full h1 h2 hg hlen
    unfold generate_response
    simp [h1, h2, hg, hlen]

/-- C3, witness: the three fallback branches exercised at concrete
states and generation outcomes. -/
theorem C3_generate_contract_witness :
    generate_response (ServiceState.mk false false) false
      (fun _ => GenOutcome.raises) "q" 512 (7/10) = modelUnavailableMsg ∧
    generate_response (ServiceState.mk true true) true
      (fun _ => GenOutcome.raises) "q" 512 (7/10) = techDifficultiesMsg ∧
    generate_response (ServiceState.mk true true) true
      (fun _ => GenOutcome.returns "<|user|>\nq\n<|assistant|>\nshort") "q" 512
      (7/10) = tooShortMsg := by
  refine ⟨?_, ?_, ?_⟩
  · exact (C3_generate_contract (ServiceState.mk false false) false
      (fun _ => GenOutcome.raises) "q" 512 (7/10)).1 (Or.inl rfl)
  · exact (C3_generate_contract (ServiceState.mk true true) true
      (fun _ => GenOutcome.raises) "q" 512 (7/10)).2.1 rfl rfl rfl
  · exact (C3_generate_contract (ServiceState.mk true true) true
      (fun _ => GenOutcome.returns "<|user|>\nq\n<|assistant|>\nshort") "q" 512
      (7/10)).2.2 "<|user|>\nq\n<|assistant|>\nshort" rfl rfl rfl (by decide)

/-- The duplicate-obligation text: the same obligation sentence stated
twice. -/
def c4Text : String :=
  "You shall do the work properly now. You shall do the work properly now."

/-- C4, counterexample: the rule-based obligations list is not
deduplicated — a text repeating one obligation sentence yields the same
string twice. -/
theorem C4_dedup_counterexample : ¬ (extract_obligations c4Text).Nodup := by decide

/-- C4, amended: every rule-based `EntitySet` has exactly the five
categories; parties, dates and monetary values are deduplicated and
capped at 5, legal terms are deduplicated and capped at 8, merged
categories are deduplicated and capped at 10 — but obligations are only
capped at 5, never deduplicated. -/
theorem C4_invariants_amended (text : String) :
    (extract_entities_rule_based text).map Prod.fst = categories ∧
    (extract_parties text).Nodup ∧ (extract_parties text).length ≤ 5 ∧
    (extract_dates text).Nodup ∧ (extract_dates text).length ≤ 5 ∧
    (extract_monetary_values text).Nodup ∧
    (extract_monetary_values text).length ≤ 5 ∧
    (extract_legal_terms text).Nodup ∧ (extract_legal_terms text).length ≤ 8 ∧
    (extract_obligations text).length ≤ 5 ∧
    (∀ a b : List String,
      (mergeCategory a b).Nodup ∧ (mergeCategory a b).length ≤ 10) := by
  refine ⟨rfl, ?_, ?_, ?_, ?_, ?_, ?_, ?_, ?_, ?_,
    fun a b => ⟨nodup_mergeCategory a b, length_mergeCategory a b⟩⟩
  · exact (nodup_dedupFirst _).sublist (List.take_sublist _ _)
  · exact List.length_take_le _ _
  · exact (nodup_dedupFirst _).sublist (List.take_sublist _ _)
  · exact List.length_take_le _ _
  · exact (nodup_dedupFirst _).sublist (List.take_sublist _ _)
  · exact List.length_take_le _ _
  · have hv : (legalVocab.map pyTitle).Nodup := by decide
    have hsub :
        ((legalVocab.filter (fun t => reSearchB (wholeWordRE t) text)).map pyTitle).Sublist
          (legalVocab.map pyTitle) :=
      (List.filter_sublist _).map pyTitle
    exact ((hv.sublist hsub).sublist (List.take_sublist _ _))
  · exact List.length_take_le _ _
  · exact List.length_take_le _ _

/-- C5, counterexample: a failed load is not terminal.  Starting from a
fresh state whose load attempt failed, the very next
generation-dependent call re-attempts initialization (and here even
succeeds), contradicting the claim that no subsequent call re-attempts
loading. -/
theorem C5_terminal_counterexample :
    ¬ (∀ loadAgain : Bool,
        (ensureModelLoaded (initModel (ServiceState.mk false false) false)
          loadAgain).2 = false) := by
  decide

/-- C5, amended: after a failed load the flag simply stays `False`, so
every subsequent generation-dependent call re-attempts initialization
(which may succeed); while the model stays unloaded every caller still
receives the literal fallback string rather than a propagated failure. -/
theorem C5_retry_amended (st : ServiceState) (gen : GenRequest → GenOutcome)
    (prompt : String) (maxLength : Nat) (temperature : ℚ)
    (hld : st.modelLoaded = false) :
    (∀ loadSucceeds : Bool, (ensureModelLoaded st loadSucceeds).2 = true) ∧
    (ensureModelLoaded st false).1.modelLoaded = false ∧
    (ensureModelLoaded st true).1.modelLoaded = true ∧
    (st.pipelinePresent = false →
      generate_response st false gen prompt maxLength temperature =
        modelUnavailableMsg) := by
  refine ⟨?_, ?_, ?_, ?_⟩
  · intro ls
    simp [ensureModelLoaded, hld]
  · simp [ensureModelLoaded, hld, initModel]
  · simp [ensureModelLoaded, hld, initModel]
  · intro hp
    unfold generate_response
    simp [ensureModelLoaded, hld, initModel, hp]

/-- C5, witness: the retry behaviour at the concrete fresh-failed
state. -/
theorem C5_retry_amended_witness :
    (∀ loadSucceeds : Bool,
      (ensureModelLoaded (ServiceState.mk false false) loadSucceeds).2 = true) ∧
    (ensureModelLoaded (ServiceState.mk false false) false).1.modelLoaded = false ∧
    (ensureModelLoaded (ServiceState.mk false false) true).1.modelLoaded = true ∧
    ((ServiceState.mk false false).pipelinePresent = false →
      generate_response (ServiceState.mk false false) false
        (fun _ => GenOutcome.raises) "q" 512 (7/10) = modelUnavailableMsg) :=
  C5_retry_amended (ServiceState.mk false false) (fun _ => GenOutcome.raises)
    "q" 512 (7/10) rfl

/-- Well-formed reply with all five headers and inline comma-lists. -/
def c6Inline : String :=
  "PARTIES: John Smith, Acme Corp\nDATES: March 1 2024\nMONETARY VALUES: $5, $10\nOBLIGATIONS: pay rent\nLEGAL TERMS: breach"

/-- The same items as bullet-point lists under each header. -/
def c6Bullet : String :=
  "PARTIES:\n- John Smith\n- Acme Corp\nDATES:\n- March 1 2024\nMONETARY VALUES:\n- $5\n- $10\nOBLIGATIONS:\n- pay rent\nLEGAL TERMS:\n- breach"

/-- Reply with the `DATES:` header missing entirely. -/
def c6Missing : String :=
  "PARTIES: John Smith, Acme Corp\nMONETARY VALUES: $5, $10\nOBLIGATIONS: pay rent\nLEGAL TERMS: breach"

/-- Reply whose `PARTIES:` value is the literal placeholder text. -/
def c6Placeholder : String :=
  "PARTIES: [list the individuals, companies, or organizations involved]\nDATES: March 1 2024"

/-- C6, counterexample: a `•`-prefixed line before any section header is
not ignored — through the unparenthesized `and`/`or` precedence in the
final `elif`, it reaches `entities[None].append`, raising a `KeyError`
that the enclosing `except` catches, which abandons the rest of the
lines.  The same reply with and without the stray bullet line therefore
parses differently (the version with the bullet loses all parties). -/
theorem C6_parser_counterexample :
    ¬ (parse_ai_entities "• stray\nPARTIES: John Smith, Acme Corp" =
       parse_ai_entities "PARTIES: John Smith, Acme Corp") := by decide

/-- C6, amended: the parser recovers the listed items per category from
inline comma-lists; bullet-point lists yield the same result; a missing
header leaves that category empty with the others unaffected; the
literal placeholder after a header leaves that category empty; a
`-`-prefixed line before any header is ignored without affecting the
rest; but a `•`-prefixed line with non-empty content before any header
aborts the parse (internal `KeyError`, caught), returning the entities
accumulated so far — here the all-empty record. -/
theorem C6_parser_amended :
    parse_ai_entities c6Inline =
      Entities.mk ["John Smith", "Acme Corp"] ["March 1 2024"] ["$5", "$10"]
        ["pay rent"] ["breach"] ∧
    parse_ai_entities c6Bullet = parse_ai_entities c6Inline ∧
    parse_ai_entities c6Missing =
      Entities.mk ["John Smith", "Acme Corp"] [] ["$5", "$10"] ["pay rent"]
        ["breach"] ∧
    parse_ai_entities c6Placeholder =
      Entities.mk [] ["March 1 2024"] [] [] [] ∧
    (parse_ai_entities "- stray\nPARTIES: John Smith").parties = ["John Smith"] ∧
    parse_ai_entities "• stray\nPARTIES: John Smith" = emptyEntities := by
  refine ⟨?_, ?_, ?_, ?_, ?_, ?_⟩ <;> decide

/-- C7, counterexample: a bulleted line appearing before the
`Key Characteristics:` header does end up in `key_characteristics`,
contradicting the claimed cursor discipline. -/
theorem C7_cursor_counterexample :
    "early bullet" ∈
      (parse_ai_classification "- early bullet\nType: NDA").key_characteristics := by
  decide

/-- C7, amended: classification parsing keeps no category cursor at
all — the `Key Characteristics:` header line is merely skipped, and
every bulleted line anywhere in the reply (before the header, under
`Description:`, or with no header present) is appended to
`key_characteristics`. -/
theorem C7_no_cursor_amended :
    (parse_ai_classification "- early bullet\nType: NDA").key_characteristics =
      ["early bullet"] ∧
    (parse_ai_classification "- early bullet\nType: NDA").type = "NDA" ∧
    (parse_ai_classification "Type: NDA\nKey Characteristics:\n- a\n- b").key_characteristics =
      ["a", "b"] ∧
    (parse_ai_classification "Description: legal doc\n- under description").key_characteristics =
      ["under description"] ∧
    (parse_ai_classification "Key Characteristics:").key_characteristics = [] := by
  refine ⟨?_, ?_, ?_, ?_, ?_⟩ <;> decide

/-- C8: confidence parsing extracts the first decimal number of the
`Confidence:` value and rescales by 1/100 exactly when the raw value
exceeds 1: `"85"` parses to 0.85, `"95%"` to 0.95, `"0.9"` to 0.9,
`"1.2"` to 0.012, and a non-numeric value such as `"abc"` leaves the
confidence unchanged from its prior value (the default 0.5 in a fresh
parse). -/
theorem C8_confidence_parsing :
    (parse_ai_classification "Confidence: 85").confidence = 17/20 ∧
    (parse_ai_classification "Confidence: 95%").confidence = 19/20 ∧
    (parse_ai_classification "Confidence: 0.9").confidence = 9/10 ∧
    (parse_ai_classification "Confidence: 1.2").confidence = 3/250 ∧
    (∀ r : Classification, parseClassifyLinesGo ["Confidence: abc"] r = r) ∧
    (parse_ai_classification "Confidence: abc").confidence =
      defaultClassification.confidence := by
  refine ⟨?_, ?_, ?_, ?_, fun r => rfl, ?_⟩
  · with_unfolding_all rfl
  · with_unfolding_all rfl
  · with_unfolding_all rfl
  · with_unfolding_all rfl
  · with_unfolding_all rfl

/-- C10: the request issued to the pipeline always uses
`max_new_tokens = min(max_length, 100)` and the fixed sampling
parameters temperature 0.3, top-p 0.8, repetition penalty 1.05
(`do_sample=True`, one sequence); the `temperature` argument of
`generate_response` has no effect on the result; and every derived
operation passes a `max_length` between 200 and 400. -/
theorem C10_issued_request (st : ServiceState) (loadSucceeds : Bool)
    (gen : GenRequest → GenOutcome) (prompt : String) (maxLength : Nat)
    (t1 t2 : ℚ) :
    (issuedRequest prompt maxLength).maxNewTokens = min maxLength 100 ∧
    (issuedRequest prompt maxLength).temperature = 3/10 ∧
    (issuedRequest prompt maxLength).topP = 4/5 ∧
    (issuedRequest prompt maxLength).repetitionPenalty = 21/20 ∧
    (issuedRequest prompt maxLength).doSample = true ∧
    (issuedRequest prompt maxLength).numReturnSequences = 1 ∧
    generate_response st loadSucceeds gen prompt maxLength t1 =
      generate_response st loadSucceeds gen prompt maxLength t2 ∧
    (200 ≤ simplifyClauseMaxLength ∧ simplifyClauseMaxLength ≤ 400) ∧
    (200 ≤ extractEntitiesMaxLength ∧ extractEntitiesMaxLength ≤ 400) ∧
    (200 ≤ classifyDocumentMaxLength ∧ classifyDocumentMaxLength ≤ 400) ∧
    (200 ≤ answerQuestionMaxLength ∧ answerQuestionMaxLength ≤ 400) :=
  ⟨rfl, rfl, rfl, rfl, rfl, rfl, rfl, by decide, by decide, by decide, by decide⟩

/-- C9, counterexample: self-merge is not plain deduplicate-and-cap —
an entity dict whose category holds an empty string loses it in the
merge (the merge also filters empty and whitespace-only items), so the
claimed equality fails. -/
theorem C9_self_merge_counterexample :
    dictGet (merge_entity_results [("parties", [""])] [("parties", [""])])
        "parties" ≠
      (dedupFirst [""]).take 10 := by decide

/-- C9, amended: merging an entity dict with itself gives, per
category, the deduplication of that category with empty and
whitespace-only items removed, capped at 10. -/
theorem C9_self_merge_amended (A : List (String × List String)) (c : String)
    (hc : c ∈ categories) :
    dictGet (merge_entity_results A A) c =
      ((dedupFirst (dictGet A c)).filter
        (fun item => item != "" && pyStrip item != "")).take 10 := by
  rw [dictGet_merge A A hc]
  exact mergeCategory_self (dictGet A c)

/-- C9, witness: self-merge instantiated at a concrete dict with a
duplicate and an empty item. -/
theorem C9_self_merge_amended_witness :
    dictGet (merge_entity_results [("parties", ["a", "a", ""])]
        [("parties", ["a", "a", ""])]) "parties" =
      ((dedupFirst (dictGet [("parties", ["a", "a", ""])] "parties")).filter
        (fun item => item != "" && pyStrip item != "")).take 10 :=
  C9_self_merge_amended [("parties", ["a", "a", ""])] "parties" (by decide)

end LegalDoc

